import Mathlib

/-!
Verification of the `attempt` library (Result / Option variant types with
short-circuiting combinators) against its TypeScript source.

The embedding follows the source files:
  * `src/pkg/result/result.ts`   — `Ok` / `Err` classes, `Result` union
  * `src/pkg/option/option.ts`   — `Some` / `None` classes, `Option` union
  * `src/internal/utils.ts`      — `isNullable`, `toError`
  * `src/pkg/result/utils/index.ts` — `attempt`
  * `src/pkg/result/$try.ts`, `src/pkg/option/$maybe.ts` — generator drivers
  * `src/try-block/index.ts`     — `tryBlock`

JavaScript payload values are modelled by `JSVal` (numbers, strings,
booleans, `null`, `undefined`, and `Error` objects identified by their
message).  Methods that throw are modelled with `Except`; callback-using
methods have traced variants that also report how often the callback ran.
-/

namespace Attempt

/-- Model of a JavaScript value as stored in `Ok`/`Err`/`Some` payloads:
primitives plus `Error` objects (identified by their message). -/
inductive JSVal where
  | vnull
  | vundefined
  | vbool (b : Bool)
  | vnum (n : Int)
  | vstr (s : String)
  | verror (message : String)
deriving DecidableEq

/-- `isNullable` from `src/internal/utils.ts`:
`value == null || value === undefined` — loose equality with `null` is true
exactly for `null` and `undefined`. -/
def isNullable : JSVal → Bool
  | .vnull => true
  | .vundefined => true
  | _ => false

/-- JavaScript `String(v)` conversion on the modelled values. -/
def jsString : JSVal → String
  | .vnull => "null"
  | .vundefined => "undefined"
  | .vbool true => "true"
  | .vbool false => "false"
  | .vnum n => toString n
  | .vstr s => s
  | .verror m => "Error: " ++ m

/-- `e instanceof Error` on the modelled values. -/
def isError : JSVal → Bool
  | .verror _ => true
  | _ => false

/-- `toError` from `src/internal/utils.ts`: an `Error` instance passes
through unchanged, any other thrown value becomes `new Error(String(e))`. -/
def toError : JSVal → JSVal
  | .verror m => .verror m
  | v => .verror (jsString v)

/-- Rendering of `JSON.stringify(v)` inside a template literal, as used by
`Ok.toString` / `Err.toString`.  On the modelled values `JSON.stringify`
never throws, so the `<non-serializable>` fallback of the source is
unreachable here.  (`JSON.stringify(undefined)` is `undefined`, which a
template literal renders as the text `undefined`; an `Error` object has no
enumerable own properties, so it serializes to `\x7b\x7d`.) -/
def jsonStringify : JSVal → String
  | .vnull => "null"
  | .vundefined => "undefined"
  | .vbool true => "true"
  | .vbool false => "false"
  | .vnum n => toString n
  | .vstr s => "\"" ++ s ++ "\""
  | .verror _ => "\x7b\x7d"

/-- `Result<T, E>` from `src/pkg/result/result.ts`: the union of the `Ok`
and `Err` classes. -/
inductive Result (T E : Type) where
  | Ok (value : T)
  | Err (value : E)
deriving DecidableEq

/-- `Option<T>` from `src/pkg/option/option.ts`: the union of the `Some`
class and the `None` singleton. -/
inductive Option (T : Type) where
  | Some (value : T)
  | None
deriving DecidableEq

/-- `ResultError` (`src/pkg/result/result.ts`), identified by its message. -/
structure ResultError where
  message : String
deriving DecidableEq

/-- `OptionError` (`src/pkg/option/option.ts`), identified by its message. -/
structure OptionError where
  message : String
deriving DecidableEq

/-- `Result.isOk` (`Ok.isOk` returns `true`, `Err.isOk` returns `false`). -/
def Result.isOk : Result T E → Bool
  | .Ok _ => true
  | .Err _ => false

/-- `toString` of `Ok`/`Err`:
`` `${tag}(${JSON.stringify(this.#value)})` `` (the catch branch is
unreachable on `JSVal` payloads, see `jsonStringify`). -/
def Result.toString : Result JSVal JSVal → String
  | .Ok v => "Ok(" ++ jsonStringify v ++ ")"
  | .Err e => "Err(" ++ jsonStringify e ++ ")"

/-- `Ok.unwrap`: returns the value.  `Err.unwrap`:
`throw new ResultError(`Unwrapping value on ${this.toString()}`)`. -/
def Result.unwrap : Result JSVal JSVal → Except ResultError JSVal
  | .Ok v => .ok v
  | .Err e => .error ⟨"Unwrapping value on " ++ Result.toString (.Err e)⟩

/-- `Ok.unwrapErr`:
`throw new ResultError(`Unwrapping error value on ${this.toString()}`)`.
`Err.unwrapErr`: returns the error value. -/
def Result.unwrapErr : Result JSVal JSVal → Except ResultError JSVal
  | .Ok v => .error ⟨"Unwrapping error value on " ++ Result.toString (.Ok v)⟩
  | .Err e => .ok e

/-- `Ok.ok()` is `some(this.#value)`; `Err.ok()` is `none()`. -/
def Result.ok : Result T E → Option T
  | .Ok v => .Some v
  | .Err _ => .None

/-- `Ok.unwrapOrElse` returns the value without calling `fn`;
`Err.unwrapOrElse` returns `fn(this.#value)`.  The second component counts
how often the callback ran. -/
def Result.unwrapOrElseTr : Result T E → (E → T) → T × Nat
  | .Ok v, _ => (v, 0)
  | .Err e, f => (f e, 1)

/-- `Ok.orElse` returns `this` without calling `fn`; `Err.orElse` returns
`fn(this.#value)`.  The second component counts callback invocations. -/
def Result.orElseTr : Result T E → (E → Result T E) → Result T E × Nat
  | .Ok v, _ => (.Ok v, 0)
  | .Err e, f => (f e, 1)

/-- `Option.fromNullable` (`src/pkg/option/option.ts`):
`isNullable(value) ? None.instance : new Some(value)`. -/
def Option.fromNullable (v : JSVal) : Option JSVal :=
  if isNullable v then .None else .Some v

/-- `Some.okOr` is `new Ok(this.#value)` (the error is ignored);
`None.okOr` is `new Err(err)`. -/
def Option.okOr : Option T → E → Result T E
  | .Some v, _ => .Ok v
  | .None, e => .Err e

/-- `Some.okOrElse` returns `new Ok(this.#value)` without calling `fn`;
`None.okOrElse` returns `new Err(fn())`.  Second component counts callback
invocations. -/
def Option.okOrElseTr : Option T → (Unit → E) → Result T E × Nat
  | .Some v, _ => (.Ok v, 0)
  | .None, f => (.Err (f ()), 1)

/-- `Some.unwrapOrElse` returns the value without calling `fn`;
`None.unwrapOrElse` returns `fn()`.  Second component counts callback
invocations. -/
def Option.unwrapOrElseTr : Option T → (Unit → T) → T × Nat
  | .Some v, _ => (v, 0)
  | .None, f => (f (), 1)

/-- `Some.orElse` returns `this` without calling `fn`; `None.orElse`
returns `fn()`.  Second component counts callback invocations. -/
def Option.orElseTr : Option T → (Unit → Option T) → Option T × Nat
  | .Some v, _ => (.Some v, 0)
  | .None, f => (f (), 1)

/-- `Some.mapOrElse` returns `fn(this.#value)`; `None.mapOrElse` returns
`defaultFn()`.  The trace components count invocations of `defaultFn` and
of `fn` respectively. -/
def Option.mapOrElseTr : Option T → (Unit → U) → (T → U) → U × Nat × Nat
  | .Some v, _, f => (f v, 0, 1)
  | .None, d, _ => (d (), 1, 0)

/-- `Some.map` is `new Some(fn(this.#value))`; `None.map` returns `this`
without calling `fn`.  Second component counts callback invocations. -/
def Option.mapTr : Option T → (T → U) → Option U × Nat
  | .Some v, f => (.Some (f v), 1)
  | .None, _ => (.None, 0)

/-- `Some.mapOr` is `fn(this.#value)`; `None.mapOr` returns the eager
default without calling `fn`.  Second component counts callback
invocations. -/
def Option.mapOrTr : Option T → U → (T → U) → U × Nat
  | .Some v, _, f => (f v, 1)
  | .None, d, _ => (d, 0)

/-- `Some.filter` tests the predicate and returns `this` or `None`;
`None.filter` returns `this` without calling the predicate.  Second
component counts predicate invocations. -/
def Option.filterTr : Option T → (T → Bool) → Option T × Nat
  | .Some v, p => (if p v then .Some v else .None, 1)
  | .None, _ => (.None, 0)

/-- `Some.and` returns `other`; `None.and` returns `this`. -/
def Option.and : Option T → Option U → Option U
  | .Some _, other => other
  | .None, _ => .None

/-- `Some.andThen` is `fn(this.#value)`; `None.andThen` returns `this`
without calling `fn`.  Second component counts callback invocations. -/
def Option.andThenTr : Option T → (T → Option U) → Option U × Nat
  | .Some v, f => (f v, 1)
  | .None, _ => (.None, 0)

/-- `Some.expect` returns the value; `None.expect` throws
`new OptionError(message)` with the message verbatim. -/
def Option.expect : Option T → String → Except OptionError T
  | .Some v, _ => .ok v
  | .None, msg => .error ⟨msg⟩

/-- `Some.unwrap` returns the value; `None.unwrap` throws
`new OptionError("Unwrap called on None")`. -/
def Option.unwrap : Option T → Except OptionError T
  | .Some v => .ok v
  | .None => .error ⟨"Unwrap called on None"⟩

/-- `Some.toJSON` returns the raw contained value; `None.toJSON` returns
`null`. -/
def Option.toJSON : Option JSVal → JSVal
  | .Some v => v
  | .None => .vnull

/-- Reference-instrumented `Result`: every `Ok`/`Err` object carries the
identity of the heap object holding it, so that `return this` (identity
preserved) can be distinguished from `new Ok(...)` / `new Err(...)`
(a fresh identity). -/
inductive RRes (T E : Type) where
  | Ok (id : Nat) (value : T)
  | Err (id : Nat) (value : E)
deriving DecidableEq

/-- `Ok.mapErr` is `return this` — no allocation, `fn` never called;
`Err.mapErr` is `new Err(fn(this.#value))` — fresh object, one call.
Arguments: the callback and a fresh object id; the second component of
the output counts callback invocations. -/
def RRes.mapErr : RRes T E → (E → E2) → Nat → RRes T E2 × Nat
  | .Ok i v, _, _ => (.Ok i v, 0)
  | .Err _ e, f, fresh => (.Err fresh (f e), 1)

/-- `Ok.map` is `new Ok(fn(this.#value))` — fresh object, one call;
`Err.map` is `return this` — no allocation, `fn` never called. -/
def RRes.map : RRes T E → (T → T2) → Nat → RRes T2 E × Nat
  | .Ok _ v, f, fresh => (.Ok fresh (f v), 1)
  | .Err i e, _, _ => (.Err i e, 0)

/-- `Ok.transpose`:
`isNullable(this.#value) ? none() : some(this as Ok<NonNullable<T>>)` —
the `Some` wraps `this`, so the identity of the `Ok` is preserved.
`Err.transpose`: `some(this)`. -/
def RRes.transpose : RRes JSVal E → Option (RRes JSVal E)
  | .Ok i v => if isNullable v then .None else .Some (.Ok i v)
  | .Err i e => .Some (.Err i e)

/-- Outcome of calling a JavaScript function: a normal return or a thrown
value. -/
inductive JSOutcome (α : Type) where
  | ret (v : α)
  | thr (e : JSVal)

/-- `attempt` from `src/pkg/result/utils/index.ts`, synchronous path with
the default error mapper (`errorMapper ?? toError`):
calls `fn()` exactly once inside a `try`; a normal return becomes
`ok(result)`, a thrown value becomes `err(toError(e))`.  The second
component counts how often `fn` was invoked. -/
def attempt (fn : Unit → JSOutcome α) : Result α JSVal × Nat :=
  match fn () with
  | .ret v => (.Ok v, 1)
  | .thr e => (.Err (toError e), 1)

/-- Body of a synchronous `$try` sequence, as driven by the generator
protocol: `ret r` is `return r` (the generator completes), `thr e` is a
raw `throw e` inside the body, and `step lbl r k` is an unwrap point
`yield* r` (via `Ok`/`Err`'s `Symbol.iterator`) labelled `lbl`, with
continuation `k` receiving the unwrapped value. -/
inductive TryBody (α T E : Type) where
  | ret (r : Result T E)
  | thr (e : JSVal)
  | step (lbl : Nat) (r : Result α E) (k : α → TryBody α T E)

/-- The `$try` driver (`src/pkg/result/$try.ts`): one call of
`body(scope).next()`, returning `n.value`.  `Ok`'s iterator returns the
value so execution continues into the continuation; `Err`'s iterator
yields the `Err` itself, so `next()` stops and `$try` returns that exact
`Err`; a raw `throw` escapes `next()` uncaught (there is no
`try`/`catch` in `$try`).  Alongside the outcome the driver records the
labels of the unwrap points that executed, in order. -/
def runTry : TryBody α T E → Except JSVal (Result T E × List Nat)
  | .ret r => .ok (r, [])
  | .thr e => .error e
  | .step l r k =>
    match r with
    | .Ok v =>
      match runTry (k v) with
      | .ok (res, ls) => .ok (res, l :: ls)
      | .error e => .error e
    | .Err e => .ok (.Err e, [l])

/-- Body of a synchronous `$maybe` sequence; same protocol as `TryBody`
with `Option` in place of `Result`. -/
inductive MaybeBody (α T : Type) where
  | ret (o : Option T)
  | thr (e : JSVal)
  | step (lbl : Nat) (o : Option α) (k : α → MaybeBody α T)

/-- The `$maybe` driver (`src/pkg/option/$maybe.ts`): one call of
`body().next()`, returning `n.value`.  `Some`'s iterator returns the
value; `None`'s iterator yields the `None` singleton, stopping the
sequence; a raw `throw` escapes uncaught. -/
def runMaybe : MaybeBody α T → Except JSVal (Option T × List Nat)
  | .ret o => .ok (o, [])
  | .thr e => .error e
  | .step l o k =>
    match o with
    | .Some v =>
      match runMaybe (k v) with
      | .ok (res, ls) => .ok (res, l :: ls)
      | .error e => .error e
    | .None => .ok (.None, [l])

/-- Straight-line `$try` sequence: unwrap each listed `Result` in order
(labels counting up from `start`, unwrapped values accumulated in `acc`),
then return `fin` of all unwrapped values. -/
def tryOfList (start : Nat) (steps : List (Result α E)) (acc : List α)
    (fin : List α → Result T E) : TryBody α T E :=
  match steps with
  | [] => .ret (fin acc.reverse)
  | r :: rest => .step start r (fun v => tryOfList (start + 1) rest (v :: acc) fin)

/-- Straight-line `$maybe` sequence, as `tryOfList`. -/
def maybeOfList (start : Nat) (steps : List (Option α)) (acc : List α)
    (fin : List α → Option T) : MaybeBody α T :=
  match steps with
  | [] => .ret (fin acc.reverse)
  | o :: rest => .step start o (fun v => maybeOfList (start + 1) rest (v :: acc) fin)

/-- `$try` sequence that unwraps the listed steps and then executes a raw
`throw ex`. -/
def tryThrowAfter (start : Nat) (steps : List (Result α E)) (ex : JSVal) :
    TryBody α T E :=
  match steps with
  | [] => .thr ex
  | r :: rest => .step start r (fun _ => tryThrowAfter (start + 1) rest ex)

/-- `$maybe` sequence that unwraps the listed steps and then executes a
raw `throw ex`. -/
def maybeThrowAfter (start : Nat) (steps : List (Option α)) (ex : JSVal) :
    MaybeBody α T :=
  match steps with
  | [] => .thr ex
  | o :: rest => .step start o (fun _ => maybeThrowAfter (start + 1) rest ex)

/-- Body of a `tryBlock` callback (`src/try-block/index.ts`): a sequence
of `$(...)` unwraps, a direct `throw`, or a normal return of the
`OkValue`.  Thrown values are of the error type `E`, matching the
`err(error as ErrValue)` cast in the source. -/
inductive TryFnBody (α R E : Type) where
  | ret (v : R)
  | thr (e : E)
  | step (r : Result α E) (k : α → TryFnBody α R E)

/-- The `tryBlock` driver: `$` returns `result.ok()` on `Ok` and throws
`result.err()` on `Err`; the surrounding `try`/`catch` wraps the normal
return in `ok(...)` and any thrown value in `err(error as ErrValue)`. -/
def runTryBlock : TryFnBody α R E → Result R E
  | .ret v => .Ok v
  | .thr e => .Err e
  | .step r k =>
    match r with
    | .Ok v => runTryBlock (k v)
    | .Err e => .Err e

/-- `tryBlock` body that unwraps the listed steps and then throws `ex`. -/
def tbThrowAfter (steps : List (Result α E)) (ex : E) : TryFnBody α R E :=
  match steps with
  | [] => .thr ex
  | r :: rest => .step r (fun _ => tbThrowAfter rest ex)

/-- Helper: a straight-line `$try` sequence of successful steps executes
every unwrap in order and returns the final `Result` unchanged. -/
theorem runTry_ofList_all_ok (α T E : Type) (vals : List α) (l : Nat)
    (acc : List α) (fin : List α → Result T E) :
    runTry (tryOfList l (vals.map Result.Ok) acc fin)
      = .ok (fin (acc.reverse ++ vals), List.range' l vals.length) := by
  induction vals generalizing l acc with
  | nil => simp [tryOfList, runTry]
  | cons v vs ih =>
    simp [tryOfList, runTry, ih, List.range']

/-- Helper: a straight-line `$try` sequence whose first failure is the
`Err` after `vals` successful steps returns that `Err` and executes only
the unwraps up to and including it. -/
theorem runTry_ofList_first_err (α T E : Type) (vals : List α) (e : E)
    (post : List (Result α E)) (l : Nat) (acc : List α)
    (fin : List α → Result T E) :
    runTry (tryOfList l (vals.map Result.Ok ++ Result.Err e :: post) acc fin)
      = .ok (.Err e, List.range' l (vals.length + 1)) := by
  induction vals generalizing l acc with
  | nil => simp [tryOfList, runTry, List.range']
  | cons v vs ih =>
    simp [tryOfList, runTry, ih, List.range']

/-- Helper: the `$maybe` analogue of `runTry_ofList_all_ok`. -/
theorem runMaybe_ofList_all_some (α T : Type) (vals : List α) (l : Nat)
    (acc : List α) (fin : List α → Option T) :
    runMaybe (maybeOfList l (vals.map Option.Some) acc fin)
      = .ok (fin (acc.reverse ++ vals), List.range' l vals.length) := by
  induction vals generalizing l acc with
  | nil => simp [maybeOfList, runMaybe]
  | cons v vs ih =>
    simp [maybeOfList, runMaybe, ih, List.range']

/-- Helper: the `$maybe` analogue of `runTry_ofList_first_err`. -/
theorem runMaybe_ofList_first_none (α T : Type) (vals : List α)
    (post : List (Option α)) (l : Nat) (acc : List α)
    (fin : List α → Option T) :
    runMaybe (maybeOfList l (vals.map Option.Some ++ Option.None :: post) acc fin)
      = .ok (.None, List.range' l (vals.length + 1)) := by
  induction vals generalizing l acc with
  | nil => simp [maybeOfList, runMaybe, List.range']
  | cons v vs ih =>
    simp [maybeOfList, runMaybe, ih, List.range']

/-- Helper: a raw `throw` after successful `$try` steps escapes as an
exception. -/
theorem runTry_throwAfter (α T E : Type) (vals : List α) (l : Nat)
    (ex : JSVal) :
    runTry (tryThrowAfter l (vals.map Result.Ok) ex : TryBody α T E)
      = .error ex := by
  induction vals generalizing l with
  | nil => simp [tryThrowAfter, runTry]
  | cons v vs ih => simp [tryThrowAfter, runTry, ih]

/-- Helper: a raw `throw` after successful `$maybe` steps escapes as an
exception. -/
theorem runMaybe_throwAfter (α T : Type) (vals : List α) (l : Nat)
    (ex : JSVal) :
    runMaybe (maybeThrowAfter l (vals.map Option.Some) ex : MaybeBody α T)
      = .error ex := by
  induction vals generalizing l with
  | nil => simp [maybeThrowAfter, runMaybe]
  | cons v vs ih => simp [maybeThrowAfter, runMaybe, ih]

/-- Helper: `tryBlock` converts a value thrown after successful steps into
`Err` of that value. -/
theorem runTryBlock_throwAfter (α R E : Type) (vals : List α) (ex : E) :
    runTryBlock (tbThrowAfter (vals.map Result.Ok) ex : TryFnBody α R E)
      = .Err ex := by
  induction vals with
  | nil => simp [tbThrowAfter, runTryBlock]
  | cons v vs ih => simp [tbThrowAfter, runTryBlock, ih]

/-- C1: in every synchronous `$try` sequence, if some step is the first
failure then the combinator returns that exact `Err` and only the steps
up to and including it execute (the trace is `[0, …, i]`); if no step
fails, every step executes and the final produced `Result` is returned
unchanged.  The same holds for `$maybe` over `Option` with `None` as the
failure. -/
theorem try_maybe_short_circuit :
    (∀ (α T E : Type) (vals : List α) (e : E) (post : List (Result α E))
      (fin : List α → Result T E),
      runTry (tryOfList 0 (vals.map Result.Ok ++ Result.Err e :: post) [] fin)
        = .ok (.Err e, List.range (vals.length + 1)))
  ∧ (∀ (α T E : Type) (vals : List α) (fin : List α → Result T E),
      runTry (tryOfList 0 (vals.map Result.Ok) [] fin)
        = .ok (fin vals, List.range vals.length))
  ∧ (∀ (α T : Type) (vals : List α) (post : List (Option α))
      (fin : List α → Option T),
      runMaybe (maybeOfList 0 (vals.map Option.Some ++ Option.None :: post) [] fin)
        = .ok (.None, List.range (vals.length + 1)))
  ∧ (∀ (α T : Type) (vals : List α) (fin : List α → Option T),
      runMaybe (maybeOfList 0 (vals.map Option.Some) [] fin)
        = .ok (fin vals, List.range vals.length)) := by
  refine ⟨?_, ?_, ?_, ?_⟩
  · intro α T E vals e post fin
    rw [List.range_eq_range']
    exact runTry_ofList_first_err α T E vals e post 0 [] fin
  · intro α T E vals fin
    rw [List.range_eq_range']
    simpa using runTry_ofList_all_ok α T E vals 0 [] fin
  · intro α T vals post fin
    rw [List.range_eq_range']
    exact runMaybe_ofList_first_none α T vals post 0 [] fin
  · intro α T vals fin
    rw [List.range_eq_range']
    simpa using runMaybe_ofList_all_some α T vals 0 [] fin

/-- C2: `attempt(fn)` invokes `fn` exactly once and never re-throws: a
normal return `v` yields `Ok(v)`; a thrown value `e` yields
`Err(toError(e))`, where the default mapper passes an `Error` instance
through unchanged and wraps any other thrown value as
`new Error(String(e))`.  In particular `attempt(() => 5)` is `Ok(5)`,
`attempt(() => { throw new Error("e") })` is `Err` of that `Error`, and
`attempt(() => { throw 13 })` is `Err` of a constructed `Error`, not of
the raw `13`. -/
theorem attempt_spec :
    (∀ (α : Type) (fn : Unit → JSOutcome α), (attempt fn).2 = 1)
  ∧ (∀ (α : Type) (fn : Unit → JSOutcome α) (v : α),
      fn () = .ret v → attempt fn = (.Ok v, 1))
  ∧ (∀ (α : Type) (fn : Unit → JSOutcome α) (e : JSVal),
      fn () = .thr e → attempt fn = (.Err (toError e), 1))
  ∧ (∀ m : String, toError (.verror m) = .verror m)
  ∧ (∀ e : JSVal, isError e = false → toError e = .verror (jsString e))
  ∧ attempt (fun _ => JSOutcome.ret (5 : Int)) = (.Ok 5, 1)
  ∧ attempt ((fun _ => JSOutcome.thr (JSVal.verror "e")) : Unit → JSOutcome Int)
      = (.Err (.verror "e"), 1)
  ∧ attempt ((fun _ => JSOutcome.thr (JSVal.vnum 13)) : Unit → JSOutcome JSVal)
      = (.Err (.verror "13"), 1)
  ∧ (attempt ((fun _ => JSOutcome.thr (JSVal.vnum 13)) : Unit → JSOutcome JSVal)).1
      ≠ .Err (.vnum 13) := by
  refine ⟨?_, ?_, ?_, ?_, ?_, ?_, ?_, ?_, ?_⟩
  · intro α fn
    unfold attempt
    cases fn () <;> rfl
  · intro α fn v h
    unfold attempt
    rw [h]
  · intro α fn e h
    unfold attempt
    rw [h]
  · intro m
    rfl
  · intro e h
    cases e <;> simp_all [isError, toError]
  · rfl
  · rfl
  · rfl
  · decide

/-- Witness for C2 at concrete inputs. -/
theorem attempt_spec_witness :
    attempt (fun _ => JSOutcome.ret (7 : Int)) = (.Ok 7, 1)
  ∧ attempt ((fun _ => JSOutcome.thr (JSVal.vstr "boom")) : Unit → JSOutcome Int)
      = (.Err (toError (JSVal.vstr "boom")), 1) :=
  ⟨attempt_spec.2.1 Int (fun _ => JSOutcome.ret 7) 7 rfl,
   attempt_spec.2.2.1 Int (fun _ => JSOutcome.thr (JSVal.vstr "boom"))
     (JSVal.vstr "boom") rfl⟩

/-- C3 counterexample: `Err("x").unwrap()` throws a `ResultError` whose
message is `"Unwrapping value on Err(\"x\")"`, not the claimed
`"unwrapping error value on <string repr>"` (in either casing) — that
phrase is `unwrapErr`'s failure message on `Ok`. -/
theorem err_unwrap_message_cex :
    Result.unwrap (Result.Err (JSVal.vstr "x"))
      = Except.error ⟨"Unwrapping value on Err(\"x\")"⟩
  ∧ ("Unwrapping value on Err(\"x\")" : String)
      ≠ "Unwrapping error value on Err(\"x\")"
  ∧ ("Unwrapping value on Err(\"x\")" : String)
      ≠ "unwrapping error value on Err(\"x\")" := by
  refine ⟨rfl, by decide, by decide⟩

/-- C3 amended: `unwrap()` on `Ok(x)` returns `x`; `unwrap()` on `Err`
fails with a `ResultError` whose message is
`"Unwrapping value on <string repr>"`; the phrase
`"Unwrapping error value on <string repr>"` is instead the message of
`unwrapErr()` failing on `Ok`, while `unwrapErr()` on `Err` returns the
error value. -/
theorem unwrap_unwrapErr_messages :
    (∀ x : JSVal, Result.unwrap (.Ok x) = .ok x)
  ∧ (∀ e : JSVal, Result.unwrap (.Err e)
      = .error ⟨"Unwrapping value on " ++ Result.toString (.Err e)⟩)
  ∧ (∀ x : JSVal, Result.unwrapErr (.Ok x)
      = .error ⟨"Unwrapping error value on " ++ Result.toString (.Ok x)⟩)
  ∧ (∀ e : JSVal, Result.unwrapErr (.Err e) = .ok e) := by
  refine ⟨?_, ?_, ?_, ?_⟩ <;> intro x <;> rfl

/-- C4: `transpose()` returns `None` for `Ok(null)` and `Ok(undefined)`;
for an `Ok` holding any other value (including falsy values such as `0`
or `""`) it returns `Some` wrapping the very same `Ok` object; for any
`Err` it returns `Some` wrapping the same `Err` object unchanged. -/
theorem transpose_spec :
    (∀ (E : Type) (i : Nat),
      RRes.transpose (RRes.Ok i JSVal.vnull : RRes JSVal E) = .None)
  ∧ (∀ (E : Type) (i : Nat),
      RRes.transpose (RRes.Ok i JSVal.vundefined : RRes JSVal E) = .None)
  ∧ (∀ (E : Type) (i : Nat) (v : JSVal), v ≠ JSVal.vnull →
      v ≠ JSVal.vundefined →
      RRes.transpose (RRes.Ok i v : RRes JSVal E) = .Some (.Ok i v))
  ∧ (∀ (E : Type) (i : Nat) (e : E),
      RRes.transpose (.Err i e) = .Some (.Err i e)) := by
  refine ⟨fun E i => rfl, fun E i => rfl, ?_, fun E i e => rfl⟩
  intro E i v h1 h2
  cases v <;> simp_all [RRes.transpose, isNullable]

/-- Witness for C4 at falsy but non-null payloads `0` and `""`. -/
theorem transpose_spec_witness :
    RRes.transpose (RRes.Ok 5 (JSVal.vnum 0) : RRes JSVal String)
      = .Some (.Ok 5 (JSVal.vnum 0))
  ∧ RRes.transpose (RRes.Ok 6 (JSVal.vstr "") : RRes JSVal String)
      = .Some (.Ok 6 (JSVal.vstr "")) :=
  ⟨transpose_spec.2.2.1 String 5 (JSVal.vnum 0) (by decide) (by decide),
   transpose_spec.2.2.1 String 6 (JSVal.vstr "") (by decide) (by decide)⟩

/-- C5: `Option.fromNullable(x).okOr(e).ok()` equals
`Option.fromNullable(x)` (both `Some(x)`) whenever `x` is neither `null`
nor `undefined`; for `null`/`undefined` it is `None`. -/
theorem fromNullable_okOr_ok_roundtrip :
    (∀ (E : Type) (x : JSVal) (e : E), x ≠ JSVal.vnull →
      x ≠ JSVal.vundefined →
      ((Option.fromNullable x).okOr e).ok = Option.fromNullable x
        ∧ Option.fromNullable x = .Some x)
  ∧ (∀ (E : Type) (e : E),
      ((Option.fromNullable JSVal.vnull).okOr e).ok = .None
        ∧ ((Option.fromNullable JSVal.vundefined).okOr e).ok = .None) := by
  constructor
  · intro E x e h1 h2
    cases x <;> simp_all [Option.fromNullable, isNullable, Option.okOr,
      Result.ok]
  · intro E e
    exact ⟨rfl, rfl⟩

/-- Witness for C5 at `x = 7` and `e = "e"`. -/
theorem fromNullable_okOr_ok_roundtrip_witness :
    ((Option.fromNullable (JSVal.vnum 7)).okOr "e").ok
      = Option.fromNullable (JSVal.vnum 7)
  ∧ Option.fromNullable (JSVal.vnum 7) = .Some (JSVal.vnum 7) :=
  fromNullable_okOr_ok_roundtrip.1 String (JSVal.vnum 7) "e"
    (by decide) (by decide)

/-- C6: `Ok(x).mapErr(f)` returns the very same `Ok` object without
calling `f`; `Err(e).map(f)` returns the very same `Err` object without
calling `f`; `None`'s `map`, `mapOr`, `filter`, `and` and `andThen`
return `None` unchanged (the eager default for `mapOr`) without ever
invoking their callback. -/
theorem identity_noops :
    (∀ (T E E2 : Type) (i fresh : Nat) (v : T) (f : E → E2),
      RRes.mapErr (.Ok i v) f fresh = (.Ok i v, 0))
  ∧ (∀ (T T2 E : Type) (i fresh : Nat) (e : E) (g : T → T2),
      RRes.map (.Err i e) g fresh = (.Err i e, 0))
  ∧ (∀ (T U : Type) (f : T → U),
      Option.mapTr .None f = (.None, 0))
  ∧ (∀ (T U : Type) (d : U) (f : T → U),
      Option.mapOrTr .None d f = (d, 0))
  ∧ (∀ (T : Type) (p : T → Bool),
      Option.filterTr .None p = (.None, 0))
  ∧ (∀ (T U : Type) (o : Option U),
      Option.and (.None : Option T) o = .None)
  ∧ (∀ (T U : Type) (f : T → Option U),
      Option.andThenTr .None f = (.None, 0)) := by
  refine ⟨?_, ?_, ?_, ?_, ?_, ?_, ?_⟩ <;> intros <;> rfl

/-- C7: when the primary variant is present, the default-producing
callback of `unwrapOrElse`, `orElse`, `okOrElse` and `mapOrElse` is never
invoked; in particular `Some(x).unwrapOrElse(f) = x` and
`Ok(x).unwrapOrElse(f) = x` for every `f`. -/
theorem laziness_primary_variant :
    (∀ (T : Type) (x : T) (f : Unit → T),
      Option.unwrapOrElseTr (.Some x) f = (x, 0))
  ∧ (∀ (T E : Type) (x : T) (g : Unit → E),
      Option.okOrElseTr (.Some x) g = (.Ok x, 0))
  ∧ (∀ (T : Type) (x : T) (g : Unit → Option T),
      Option.orElseTr (.Some x) g = (.Some x, 0))
  ∧ (∀ (T U : Type) (x : T) (d : Unit → U) (g : T → U),
      Option.mapOrElseTr (.Some x) d g = (g x, 0, 1))
  ∧ (∀ (T E : Type) (x : T) (f : E → T),
      Result.unwrapOrElseTr (.Ok x) f = (x, 0))
  ∧ (∀ (T E : Type) (x : T) (g : E → Result T E),
      Result.orElseTr (.Ok x) g = (.Ok x, 0)) := by
  refine ⟨?_, ?_, ?_, ?_, ?_, ?_⟩ <;> intros <;> rfl

/-- C8: on `Some(x)`, `expect(message)` and `unwrap()` return `x`; on
`None`, `expect(message)` fails with an `OptionError` carrying `message`
verbatim and `unwrap()` fails with an `OptionError` whose message is the
fixed string `"Unwrap called on None"`. -/
theorem option_expect_unwrap :
    (∀ (T : Type) (x : T) (msg : String),
      Option.expect (.Some x) msg = .ok x)
  ∧ (∀ (T : Type) (x : T), Option.unwrap (.Some x) = .ok x)
  ∧ (∀ (T : Type) (msg : String),
      Option.expect (.None : Option T) msg = .error ⟨msg⟩)
  ∧ (∀ T : Type,
      Option.unwrap (.None : Option T)
        = .error ⟨"Unwrap called on None"⟩) := by
  refine ⟨?_, ?_, ?_, ?_⟩ <;> intros <;> rfl

/-- C9: a raw `throw` inside a `$try` or `$maybe` body propagates as an
uncaught exception — it is not converted into `Err` or `None` — whereas
`tryBlock` catches any value thrown inside its body and returns it
wrapped in `Err`. -/
theorem throw_propagation_vs_tryBlock :
    (∀ (α T E : Type) (vals : List α) (ex : JSVal),
      runTry (tryThrowAfter 0 (vals.map Result.Ok) ex : TryBody α T E)
        = .error ex)
  ∧ (∀ (α T : Type) (vals : List α) (ex : JSVal),
      runMaybe (maybeThrowAfter 0 (vals.map Option.Some) ex : MaybeBody α T)
        = .error ex)
  ∧ (∀ (α R E : Type) (vals : List α) (ex : E),
      runTryBlock (tbThrowAfter (vals.map Result.Ok) ex : TryFnBody α R E)
        = .Err ex) :=
  ⟨fun α T E vals ex => runTry_throwAfter α T E vals 0 ex,
   fun α T vals ex => runMaybe_throwAfter α T vals 0 ex,
   fun α R E vals ex => runTryBlock_throwAfter α R E vals ex⟩

/-- C10: `Some(x).toJSON()` returns the raw contained value `x` and
`None.toJSON()` returns `null`, so JSON serialization renders a `Some`
as its bare value and a `None` as `null`; `toJSON` is total on both
variants. -/
theorem option_toJSON :
    (∀ v : JSVal, Option.toJSON (.Some v) = v)
  ∧ Option.toJSON .None = JSVal.vnull
  ∧ jsonStringify (Option.toJSON .None) = "null"
  ∧ jsonStringify (Option.toJSON (.Some (JSVal.vnum 42))) = "42" :=
  ⟨fun _ => rfl, rfl, rfl, rfl⟩

end Attempt
